import Mathlib

/-!
Shallow embedding of src/main.py (WebSearchAgent).

Python dictionaries with possibly-missing string fields are modelled as
records of `Option String` (`none` = key absent).  Python truthiness of a
string-or-None value is `optTruthy`.  Network I/O is modelled by passing the
response explicitly: a provider call receives a function from the request
parameters it sends to `Option` of the parsed JSON body, where `none` stands
for any transport, HTTP-status or JSON-parsing failure (everything the
surrounding `try/except` catches).  The generative-model call is a function
from the prompt to `Except String String` (`.error e` = an exception whose
string form is `e`).  Python string slicing `s[:n]` for `n ≥ 0` is `pyTake`,
and list slicing `l[:n]` (with Python negative-index semantics) is `pySlice`.
-/

/-- Truthiness of a Python value that is either a string or None:
None and the empty string are falsy, every other string is truthy. -/
def optTruthy : Option String → Bool
  | none => false
  | some s => !s.data.isEmpty

/-- Python query.replace of the space character by the plus character,
as used to build the constructed URLs. -/
def pyReplaceSpace (s : String) : String :=
  ⟨s.data.map fun c => if c = ' ' then '+' else c⟩

/-- Python string slice s[:n] for a nonnegative count. -/
def pyTake (s : String) (n : Nat) : String :=
  ⟨s.data.take n⟩

/-- Python list slice l[:n] with Python semantics for a possibly negative n:
for n ≥ 0 it takes the first n elements (clamped at the length), and for
n < 0 it takes all but the last |n| elements (clamped at zero). -/
def pySlice {α : Type} (l : List α) (n : Int) : List α :=
  if 0 ≤ n then l.take n.toNat else l.take (l.length - (-n).toNat)

/-- A search-result record as produced by the providers in src/main.py:
a Python dict whose possible keys are title, snippet, link and source.
A field is `none` when the dict was built without that key. -/
structure SearchResult where
  title : Option String
  snippet : Option String
  link : Option String
  source : Option String
deriving DecidableEq, Repr

/-- An entry of the items array of a Google Custom Search JSON body. -/
structure GoogleItem where
  title : Option String
  snippet : Option String
  link : Option String
deriving DecidableEq, Repr

/-- The parsed JSON body of a Google Custom Search response:
only the items key is read by the code (data.get, default empty list). -/
structure GoogleResponse where
  items : Option (List GoogleItem)
deriving DecidableEq, Repr

/-- An entry of the RelatedTopics array of a DuckDuckGo response: either a
JSON object carrying optional Text and FirstURL keys, or any non-dict value
(the code checks isinstance(topic, dict)). -/
inductive DDGTopic where
  | obj (text firstURL : Option String)
  | nonDict
deriving DecidableEq, Repr

/-- The parsed JSON body of a DuckDuckGo Instant Answer response, restricted
to the keys the code reads. -/
structure DDGResponse where
  abstract : Option String
  heading : Option String
  abstractURL : Option String
  relatedTopics : Option (List DDGTopic)
deriving DecidableEq, Repr

/-- Query parameters of the single HTTP GET issued by _google_search. -/
structure GoogleParams where
  key : String
  cx : String
  q : String
  num : Int
deriving DecidableEq, Repr

/-- Query parameters of the single HTTP GET issued by _duckduckgo_search. -/
structure DDGParams where
  q : String
  format : String
  no_html : String
  skip_disambig : String
deriving DecidableEq, Repr

/-- The params dict built by _google_search (main.py lines 35-40):
the result count sent is min(num_results, 10). -/
def googleRequest (key cx query : String) (num_results : Int) : GoogleParams :=
  { key := key, cx := cx, q := query, num := min num_results 10 }

/-- The params dict built by _duckduckgo_search (main.py lines 65-70). -/
def ddgRequest (query : String) : DDGParams :=
  { q := query, format := "json", no_html := "1", skip_disambig := "1" }

/-- The network environment: what each provider endpoint answers to a given
request, with `none` for any failure the try/except absorbs. -/
structure Network where
  google : GoogleParams → Option GoogleResponse
  ddg : DDGParams → Option DDGResponse

/-- The read-only search configuration held on self (main.py lines 20-21). -/
structure WebSearchAgent where
  search_api_key : Option String
  search_engine_id : Option String
deriving DecidableEq, Repr

/-- The abstract-derived result dict of _duckduckgo_search (lines 79-83):
title = Heading with the query as dict-get default, snippet = Abstract cut
to 200 characters plus an ellipsis, link = AbstractURL defaulting to empty;
no source key is set. -/
def ddgAbstractResult (query : String) (data : DDGResponse) : SearchResult :=
  { title := some (data.heading.getD query)
    snippet := some (pyTake (data.abstract.getD "") 200 ++ "...")
    link := some (data.abstractURL.getD "")
    source := none }

/-- The related-topic result dict of _duckduckgo_search (lines 87-92),
built from a topic whose Text is truthy. -/
def ddgTopicResult (text : String) (firstURL : Option String) : SearchResult :=
  { title := some (pyTake text 50 ++ "...")
    snippet := some (pyTake text 200 ++ "...")
    link := some (firstURL.getD "")
    source := some "DuckDuckGo" }

/-- The body of the related-topic loop (lines 86-92): a topic yields a
result when it is a dict with truthy Text, and is skipped otherwise. -/
def ddgTopicStep : DDGTopic → Option SearchResult
  | DDGTopic.obj text firstURL =>
      if optTruthy text then some (ddgTopicResult (text.getD "") firstURL) else none
  | DDGTopic.nonDict => none

/-- The related-topic loop of _duckduckgo_search (lines 85-92): slice the
RelatedTopics list (default empty) to num_results - 1 entries, keep the
entries that are dicts with truthy Text, and map each to its result dict. -/
def ddgTopicResults (data : DDGResponse) (num_results : Int) : List SearchResult :=
  (pySlice (data.relatedTopics.getD []) (num_results - 1)).filterMap ddgTopicStep

/-- The synthetic placeholder of _duckduckgo_search (lines 94-100), emitted
when the abstract and the related topics produced no result. -/
def ddgPlaceholderResult (query : String) : SearchResult :=
  { title := some ("Search results for: " ++ query)
    snippet := some ("Found search query about " ++ query ++
      ". More detailed results may require additional search APIs.")
    link := some ("https://api.duckduckgo.com/?q=" ++ pyReplaceSpace query)
    source := some "DuckDuckGo" }

/-- The fallback result of the except branch of _duckduckgo_search
(lines 104-109). -/
def fallbackResult (query : String) : SearchResult :=
  { title := some ("Search: " ++ query)
    snippet := some ("Unable to fetch live search results. This would normally search for: "
      ++ query)
    link := some ("https://www.google.com/search?q=" ++ pyReplaceSpace query)
    source := some "Fallback" }

/-- The results variable of _duckduckgo_search after the abstract step
(lines 78-83) and the related-topic loop (lines 85-92), before the
emptiness check of line 94. -/
def ddgSuccessResults (query : String) (num_results : Int) (data : DDGResponse) :
    List SearchResult :=
  (if optTruthy data.abstract then [ddgAbstractResult query data] else [])
  ++ ddgTopicResults data num_results

/-- WebSearchAgent._duckduckgo_search (main.py lines 62-109): on a parsed
response, emit the abstract result when Abstract is truthy, then the
related-topic results, then the placeholder if nothing was emitted; on any
failure return the single fallback result. -/
def duckduckgo_search (query : String) (num_results : Int)
    (dnet : DDGParams → Option DDGResponse) : List SearchResult :=
  match dnet (ddgRequest query) with
  | none => [fallbackResult query]
  | some data =>
      if (ddgSuccessResults query num_results data).isEmpty then [ddgPlaceholderResult query]
      else ddgSuccessResults query num_results data

/-- The result dict built for one Google item (main.py lines 49-54). -/
def googleItemResult (item : GoogleItem) : SearchResult :=
  { title := some (item.title.getD "")
    snippet := some (item.snippet.getD "")
    link := some (item.link.getD "")
    source := some "Google" }

/-- WebSearchAgent._google_search (main.py lines 32-59): send the request
with the capped count; on success map the items (default empty list) to
Google-tagged results, and on any failure fall back to _duckduckgo_search
with the same query and num_results. -/
def google_search (key cx query : String) (num_results : Int)
    (gnet : GoogleParams → Option GoogleResponse)
    (dnet : DDGParams → Option DDGResponse) : List SearchResult :=
  match gnet (googleRequest key cx query num_results) with
  | none => duckduckgo_search query num_results dnet
  | some data => (data.items.getD []).map googleItemResult

/-- WebSearchAgent.search_web (main.py lines 25-30): use the Google path
when both credentials are truthy, else DuckDuckGo directly. -/
def search_web (agent : WebSearchAgent) (query : String) (num_results : Int)
    (net : Network) : List SearchResult :=
  if optTruthy agent.search_api_key && optTruthy agent.search_engine_id then
    google_search (agent.search_api_key.getD "") (agent.search_engine_id.getD "")
      query num_results net.google net.ddg
  else
    duckduckgo_search query num_results net.ddg

/-- search_web as an explicit state-passing translation: the method reads
self.search_api_key and self.search_engine_id and assigns no attribute,
so the state it returns is the state it received. -/
def search_web_st (agent : WebSearchAgent) (query : String) (num_results : Int)
    (net : Network) : List SearchResult × WebSearchAgent :=
  (search_web agent query num_results net, agent)

/-- Python dict access result[k]: the value when the key is present, a
KeyError (whose str form quotes the key) when it is absent. -/
def pyKey (v : Option String) (k : String) : Except String String :=
  match v with
  | some s => Except.ok s
  | none => Except.error ("KeyError: " ++ k)

/-- The context accumulation loop of generate_response (main.py lines
113-117), with 1-based enumeration; accessing a missing key raises. -/
def contextLines : Nat → List SearchResult → Except String String
  | _, [] => Except.ok ""
  | i, r :: rs => do
      let t ← pyKey r.title "title"
      let s ← pyKey r.snippet "snippet"
      let l ← pyKey r.link "link"
      let rest ← contextLines (i + 1) rs
      Except.ok (toString i ++ ", **" ++ t ++ "**\n   " ++ s ++ "\n   Source: "
        ++ l ++ "\n\n" ++ rest)

/-- The prompt template of generate_response (main.py lines 119-129). -/
def mkPrompt (query context : String) : String :=
  "You are helpful AI assistant. Based on the following search results, provide a comprehensive and accurate answer to the user's question.\n                     User Question: "
  ++ query ++ "\n                     " ++ context
  ++ "\n                     Please provide a well-structured response that:\n                     1. Directly answers the user's question\n                     2. Synthesizes information from the search results\n                     3. Mentions sources when relevant\n                     4. Is clear and easy to understand\n                     5. Acknowledges if information is limited or uncertain\n                     \n                     Response:"

/-- The bullet list comprehension of the except branch of generate_response
(main.py line 134), evaluated left to right; accessing a missing key raises. -/
def bulletLines : List SearchResult → Except String (List String)
  | [] => Except.ok []
  | r :: rs => do
      let t ← pyKey r.title "title"
      let s ← pyKey r.snippet "snippet"
      let rest ← bulletLines rs
      Except.ok (("• " ++ t ++ ": " ++ s) :: rest)

/-- The degraded response of the except branch of generate_response
(main.py lines 133-134). -/
def degradedResponse (e : String) (results : List SearchResult) : Except String String := do
  let ls ← bulletLines results
  Except.ok ("❌ Error generating response: " ++ e
    ++ "\n\nHere are the raw search results:\n" ++ String.intercalate "\n" ls)

/-- WebSearchAgent.generate_response (main.py lines 111-134): build the
context and submit the prompt; if anything in the try block raises, return
the degraded response (whose own dict accesses are outside the try and may
themselves raise, hence the outer Except). -/
def generate_response (query : String) (results : List SearchResult)
    (completion : String → Except String String) : Except String String :=
  let attempt : Except String String := do
    let ctx ← contextLines 1 results
    completion (mkPrompt query ("Here are the search results: \n\n" ++ ctx))
  match attempt with
  | Except.ok text => Except.ok text
  | Except.error e => degradedResponse e results

/-! Concrete fixtures used to instantiate the theorems below. -/

/-- A network on which both providers fail. -/
def netFail : Network := ⟨fun _ => none, fun _ => none⟩

/-- A DuckDuckGo body with a truthy abstract and two related topics, one of
which is a non-dict entry. -/
def ddgDataA : DDGResponse :=
  { abstract := some "Paris is the capital and largest city of France."
    heading := some "Paris"
    abstractURL := some "https://duckduckgo.com/Paris"
    relatedTopics := some
      [DDGTopic.obj (some "Paris, the capital of France") (some "https://duckduckgo.com/c/Paris"),
       DDGTopic.nonDict] }

/-- A network on which the primary provider fails and the secondary answers
with ddgDataA. -/
def netA : Network := ⟨fun _ => none, fun _ => some ddgDataA⟩

/-- A network on which the primary provider succeeds with an empty items
array and the secondary fails. -/
def netEmptyItems : Network := ⟨fun _ => some ⟨some []⟩, fun _ => none⟩

/-- A DuckDuckGo body with no truthy abstract and no related topics. -/
def ddgDataEmpty : DDGResponse :=
  { abstract := some "", heading := none, abstractURL := none, relatedTopics := none }

/-! Helper lemmas. -/

/-- Concatenation of strings concatenates their character lists. -/
theorem string_data_append (a b : String) : (a ++ b).data = a.data ++ b.data :=
  rfl

/-- Length of a concatenation of strings. -/
theorem string_length_append (a b : String) : (a ++ b).length = a.length + b.length := by
  cases a with
  | mk la =>
    cases b with
    | mk lb =>
      show (la ++ lb).length = la.length + lb.length
      exact List.length_append la lb

/-- A concatenation whose left part is non-empty is non-empty. -/
theorem string_append_ne_empty (a b : String) (ha : a.length ≠ 0) : a ++ b ≠ "" := by
  intro hc
  have h := congrArg String.length hc
  rw [string_length_append] at h
  have h0 : ("" : String).length = 0 := rfl
  rw [h0] at h
  omega

/-- Taking min of the length and a count is taking the count. -/
theorem list_take_min {α : Type} (l : List α) (n : Nat) :
    l.take (min l.length n) = l.take n := by
  rcases le_total l.length n with h | h
  · rw [min_eq_left h, List.take_length, List.take_of_length_le h]
  · rw [min_eq_right h]

/-- The secondary provider never returns an empty list. -/
theorem duckduckgo_ne_nil (query : String) (n : Int)
    (dnet : DDGParams → Option DDGResponse) :
    duckduckgo_search query n dnet ≠ [] := by
  unfold duckduckgo_search
  cases h : dnet (ddgRequest query) with
  | none => simp
  | some data =>
      by_cases hE : (ddgSuccessResults query n data).isEmpty
      · simp [hE]
      · simp only [hE, if_neg, Bool.false_eq_true, not_false_iff, if_false]
        intro hc
        rw [hc] at hE
        simp at hE

/-- Shape analysis of a member of the pre-check result list of the secondary
provider: it is the abstract result (with the abstract truthy) or a
related-topic result built from a truthy topic text. -/
theorem mem_ddgSuccessResults {query : String} {n : Int} {data : DDGResponse}
    {r : SearchResult} (hr : r ∈ ddgSuccessResults query n data) :
    (optTruthy data.abstract = true ∧ r = ddgAbstractResult query data)
    ∨ ∃ text firstURL, optTruthy text = true ∧ r = ddgTopicResult (text.getD "") firstURL := by
  unfold ddgSuccessResults at hr
  rcases List.mem_append.1 hr with h | h
  · left
    split at h
    · next ht => simp only [List.mem_singleton] at h; exact ⟨ht, h⟩
    · simp at h
  · right
    unfold ddgTopicResults at h
    rcases List.mem_filterMap.1 h with ⟨t, _, ht⟩
    cases t with
    | obj text firstURL =>
        by_cases htr : optTruthy text = true
        · simp only [ddgTopicStep, htr, if_true] at ht
          exact ⟨text, firstURL, htr, (Option.some.inj ht).symm⟩
        · simp [ddgTopicStep, htr] at ht
    | nonDict => simp [ddgTopicStep] at ht

/-- Field analysis of a member of the secondary provider output: every field
other than source is present, and source is absent exactly on the
abstract-derived result. -/
theorem mem_duckduckgo_fields {query : String} {n : Int}
    {dnet : DDGParams → Option DDGResponse} {r : SearchResult}
    (hr : r ∈ duckduckgo_search query n dnet) :
    r.title.isSome = true ∧ r.snippet.isSome = true ∧ r.link.isSome = true
    ∧ (r.source = none → ∃ data, dnet (ddgRequest query) = some data
        ∧ optTruthy data.abstract = true ∧ r = ddgAbstractResult query data) := by
  unfold duckduckgo_search at hr
  split at hr
  · next heq =>
      simp only [List.mem_singleton] at hr
      subst hr
      refine ⟨rfl, rfl, rfl, fun hs => ?_⟩
      simp [fallbackResult] at hs
  · next data heq =>
      split at hr
      · simp only [List.mem_singleton] at hr
        subst hr
        refine ⟨rfl, rfl, rfl, fun hs => ?_⟩
        simp [ddgPlaceholderResult] at hs
      · rcases mem_ddgSuccessResults hr with ⟨ht, hre⟩ | ⟨text, firstURL, htr, hre⟩
        · subst hre
          exact ⟨rfl, rfl, rfl, fun _ => ⟨data, heq, ht, rfl⟩⟩
        · subst hre
          refine ⟨rfl, rfl, rfl, fun hs => ?_⟩
          simp [ddgTopicResult] at hs

/-- Field analysis of a member of the search_web output. -/
theorem mem_search_web_fields {agent : WebSearchAgent} {query : String} {n : Int}
    {net : Network} {r : SearchResult} (hr : r ∈ search_web agent query n net) :
    r.title.isSome = true ∧ r.snippet.isSome = true ∧ r.link.isSome = true
    ∧ (r.source = none → ∃ data, net.ddg (ddgRequest query) = some data
        ∧ optTruthy data.abstract = true ∧ r = ddgAbstractResult query data) := by
  unfold search_web at hr
  split at hr
  · unfold google_search at hr
    split at hr
    · exact mem_duckduckgo_fields hr
    · rcases List.mem_map.1 hr with ⟨item, _, hre⟩
      subst hre
      refine ⟨rfl, rfl, rfl, fun hs => ?_⟩
      simp [googleItemResult] at hs
  · exact mem_duckduckgo_fields hr

/-- The context loop succeeds on results whose fields are all present. -/
theorem contextLines_ok {results : List SearchResult}
    (hf : ∀ r ∈ results, r.title.isSome = true ∧ r.snippet.isSome = true
      ∧ r.link.isSome = true) :
    ∀ i, ∃ s, contextLines i results = Except.ok s := by
  induction results with
  | nil => exact fun i => ⟨"", rfl⟩
  | cons r rs ih =>
      intro i
      obtain ⟨ht, hs, hl⟩ := hf r (List.mem_cons_self r rs)
      obtain ⟨t, htv⟩ := Option.isSome_iff_exists.1 ht
      obtain ⟨s, hsv⟩ := Option.isSome_iff_exists.1 hs
      obtain ⟨l, hlv⟩ := Option.isSome_iff_exists.1 hl
      obtain ⟨rest, hrest⟩ := ih (fun x hx => hf x (List.mem_cons_of_mem r hx)) (i + 1)
      refine ⟨toString i ++ ", **" ++ t ++ "**\n   " ++ s ++ "\n   Source: "
        ++ l ++ "\n\n" ++ rest, ?_⟩
      simp [contextLines, pyKey, htv, hsv, hlv, hrest, Bind.bind, Except.bind]

/-- The bullet list succeeds on results whose title and snippet are present
and lists one line per result. -/
theorem bulletLines_ok {results : List SearchResult}
    (hf : ∀ r ∈ results, r.title.isSome = true ∧ r.snippet.isSome = true) :
    bulletLines results =
      Except.ok (results.map fun r => "• " ++ r.title.getD "" ++ ": " ++ r.snippet.getD "") := by
  induction results with
  | nil => rfl
  | cons r rs ih =>
      obtain ⟨ht, hs⟩ := hf r (List.mem_cons_self r rs)
      obtain ⟨t, htv⟩ := Option.isSome_iff_exists.1 ht
      obtain ⟨s, hsv⟩ := Option.isSome_iff_exists.1 hs
      have ih2 := ih fun x hx => hf x (List.mem_cons_of_mem r hx)
      simp [bulletLines, pyKey, htv, hsv, ih2, Bind.bind, Except.bind]

/-- When the completion call fails, generate_response is the degraded
response, provided every result field the context loop reads is present. -/
theorem generate_response_eq_degraded {query e : String} {results : List SearchResult}
    (hf : ∀ r ∈ results, r.title.isSome = true ∧ r.snippet.isSome = true
      ∧ r.link.isSome = true) :
    generate_response query results (fun _ => Except.error e) = degradedResponse e results := by
  obtain ⟨ctx, hctx⟩ := contextLines_ok hf 1
  simp [generate_response, hctx, Bind.bind, Except.bind]

/-- generate_response succeeds on results whose fields are all present,
whatever the completion call does. -/
theorem generate_response_ok {query : String} {results : List SearchResult}
    (completion : String → Except String String)
    (hf : ∀ r ∈ results, r.title.isSome = true ∧ r.snippet.isSome = true
      ∧ r.link.isSome = true) :
    ∃ s, generate_response query results completion = Except.ok s := by
  obtain ⟨ctx, hctx⟩ := contextLines_ok hf 1
  unfold generate_response
  cases hc : completion (mkPrompt query ("Here are the search results: \n\n" ++ ctx)) with
  | ok t => exact ⟨t, by simp [hctx, hc, Bind.bind, Except.bind]⟩
  | error e =>
      have hb := bulletLines_ok fun r hr => ⟨(hf r hr).1, (hf r hr).2.1⟩
      refine ⟨"❌ Error generating response: " ++ e ++ "\n\nHere are the raw search results:\n"
        ++ String.intercalate "\n"
            (results.map fun r => "• " ++ r.title.getD "" ++ ": " ++ r.snippet.getD ""), ?_⟩
      simp [hctx, hc, hb, degradedResponse, Bind.bind, Except.bind]

/-! Claim theorems. -/

/-- C1 fails as stated: with both credentials configured and the primary
provider succeeding with an empty items array, search_web returns the empty
sequence although the limit is 1. -/
theorem search_web_empty_counterexample :
    (1 : Int) ≥ 1 ∧ search_web ⟨some "k", some "c"⟩ "anything" 1 netEmptyItems = [] := by
  constructor
  · decide
  · decide

/-- C1 (amended): the secondary provider always returns a non-empty
sequence, and search_web returns a non-empty sequence whenever the
secondary path is taken, that is when the credentials are not both truthy
or when the primary call fails; a successful primary call instead returns
exactly its mapped items, which may be empty. -/
theorem search_nonempty_amended (query : String) (n : Int) :
    (∀ dnet : DDGParams → Option DDGResponse, duckduckgo_search query n dnet ≠ [])
    ∧ ∀ (agent : WebSearchAgent) (net : Network),
        ((optTruthy agent.search_api_key && optTruthy agent.search_engine_id) = false
          ∨ net.google (googleRequest (agent.search_api_key.getD "")
              (agent.search_engine_id.getD "") query n) = none) →
        search_web agent query n net ≠ [] := by
  refine ⟨fun dnet => duckduckgo_ne_nil query n dnet, ?_⟩
  intro agent net h
  by_cases hc : (optTruthy agent.search_api_key && optTruthy agent.search_engine_id) = true
  · have hg : net.google (googleRequest (agent.search_api_key.getD "")
        (agent.search_engine_id.getD "") query n) = none := by
      rcases h with h | h
      · rw [hc] at h; exact absurd h (by simp)
      · exact h
    simp only [search_web, hc, if_true]
    unfold google_search
    rw [hg]
    exact duckduckgo_ne_nil query n net.ddg
  · have hcf : (optTruthy agent.search_api_key && optTruthy agent.search_engine_id) = false := by
      cases hob : (optTruthy agent.search_api_key && optTruthy agent.search_engine_id)
      · rfl
      · exact absurd hob hc
    simp only [search_web, hcf, Bool.false_eq_true, if_false]
    exact duckduckgo_ne_nil query n net.ddg

/-- Witness for the amended C1 at concrete inputs. -/
theorem search_nonempty_amended_witness :
    search_web ⟨none, none⟩ "q" 5 netFail ≠ [] :=
  (search_nonempty_amended "q" 5).2 ⟨none, none⟩ netFail (Or.inl (by decide))

/-- C2: the related topics are sliced to at most limit - 1 entries before
filtering, so for limit 1 zero related topics are taken and the secondary
provider emits exactly the abstract result when the abstract is truthy,
else the single synthetic placeholder. -/
theorem ddg_limit_law (data : DDGResponse) (query : String) (n : Int) (hn : 1 ≤ n) :
    (pySlice (data.relatedTopics.getD []) (n - 1)).length ≤ (n - 1).toNat
    ∧ (ddgTopicResults data n).length ≤ (n - 1).toNat
    ∧ ddgTopicResults data 1 = []
    ∧ ∀ dnet : DDGParams → Option DDGResponse, dnet (ddgRequest query) = some data →
        duckduckgo_search query 1 dnet =
          if optTruthy data.abstract then [ddgAbstractResult query data]
          else [ddgPlaceholderResult query] := by
  have hslice : ∀ l : List DDGTopic, (pySlice l (n - 1)).length ≤ (n - 1).toNat := by
    intro l
    unfold pySlice
    rw [if_pos (by omega : (0 : Int) ≤ n - 1), List.length_take]
    exact min_le_left _ _
  have h10 : (1 : Int) - 1 = 0 := by norm_num
  have hzero : ddgTopicResults data 1 = [] := by
    unfold ddgTopicResults pySlice
    rw [h10]
    simp
  refine ⟨hslice _, ?_, hzero, ?_⟩
  · unfold ddgTopicResults
    exact le_trans (List.length_filterMap_le _ _) (hslice _)
  · intro dnet hdnet
    unfold duckduckgo_search
    rw [hdnet]
    by_cases ht : optTruthy data.abstract = true
    · simp [ddgSuccessResults, hzero, ht]
    · simp [ddgSuccessResults, hzero, ht]

/-- Witness for C2 at a concrete response carrying a truthy abstract. -/
theorem ddg_limit_law_witness :
    ddgTopicResults ddgDataA 1 = []
    ∧ duckduckgo_search "q" 1 (fun _ => some ddgDataA) = [ddgAbstractResult "q" ddgDataA] := by
  have h := ddg_limit_law ddgDataA "q" 1 (by decide)
  have h4 := h.2.2.2 (fun _ => some ddgDataA) rfl
  refine ⟨h.2.2.1, ?_⟩
  rw [h4]
  decide

/-- C3: snippets emitted by the secondary provider are the first
min(len(s), 200) characters of the source text followed by the ellipsis
marker, even when the text is shorter than 200 characters, and topic titles
are the first min(len(s), 50) characters followed by the ellipsis marker;
truncation counts characters, not words. -/
theorem ddg_truncation_law (s : String) (u : Option String) (query : String)
    (data : DDGResponse) :
    (ddgTopicResult s u).snippet = some (String.mk (s.data.take (min s.length 200)) ++ "...")
    ∧ (ddgTopicResult s u).title = some (String.mk (s.data.take (min s.length 50)) ++ "...")
    ∧ (s.length < 200 → (ddgTopicResult s u).snippet = some (s ++ "..."))
    ∧ (ddgAbstractResult query data).snippet
        = some (String.mk ((data.abstract.getD "").data.take
            (min (data.abstract.getD "").length 200)) ++ "...") := by
  have hmin : ∀ (t : String) (k : Nat),
      pyTake t k = String.mk (t.data.take (min t.length k)) := by
    intro t k
    unfold pyTake
    exact congrArg String.mk (list_take_min t.data k).symm
  refine ⟨?_, ?_, ?_, ?_⟩
  · show some (pyTake s 200 ++ "...") = _
    rw [hmin s 200]
  · show some (pyTake s 50 ++ "...") = _
    rw [hmin s 50]
  · intro hlen
    show some (pyTake s 200 ++ "...") = some (s ++ "...")
    have h2 : s.data.take 200 = s.data := List.take_of_length_le (le_of_lt hlen)
    unfold pyTake
    rw [h2]
  · show some (pyTake (data.abstract.getD "") 200 ++ "...") = _
    rw [hmin (data.abstract.getD "") 200]

/-- Witness for C3 on a text shorter than the truncation length. -/
theorem ddg_truncation_law_witness :
    (ddgTopicResult "abc" none).snippet = some ("abc" ++ "...") :=
  (ddg_truncation_law "abc" none "q" ddgDataEmpty).2.2.1 (by decide)

/-- C4: when the secondary provider fails, the search operation returns
exactly one synthetic result whose title is Search: query, whose snippet
names the query, whose link is a constructed web-search URL and whose
source tag is Fallback. -/
theorem ddg_failure_fallback (query : String) (n : Int) (agent : WebSearchAgent)
    (net : Network) (hfail : net.ddg (ddgRequest query) = none)
    (hcreds : (optTruthy agent.search_api_key && optTruthy agent.search_engine_id) = false) :
    duckduckgo_search query n net.ddg = [fallbackResult query]
    ∧ search_web agent query n net = [fallbackResult query]
    ∧ (fallbackResult query).title = some ("Search: " ++ query)
    ∧ (fallbackResult query).snippet
        = some ("Unable to fetch live search results. This would normally search for: "
            ++ query)
    ∧ (fallbackResult query).link
        = some ("https://www.google.com/search?q=" ++ pyReplaceSpace query)
    ∧ (fallbackResult query).source = some "Fallback" := by
  have h1 : duckduckgo_search query n net.ddg = [fallbackResult query] := by
    unfold duckduckgo_search
    rw [hfail]
  exact ⟨h1, by simp [search_web, hcreds, h1], rfl, rfl, rfl, rfl⟩

/-- Witness for C4 at a concrete query containing a space. -/
theorem ddg_failure_fallback_witness :
    search_web ⟨none, none⟩ "a b" 5 netFail = [fallbackResult "a b"]
    ∧ (fallbackResult "a b").link = some "https://www.google.com/search?q=a+b" := by
  have h := ddg_failure_fallback "a b" 5 ⟨none, none⟩ netFail rfl (by decide)
  exact ⟨h.2.1, by decide⟩

/-- C5: when the primary call fails for any reason the secondary provider is
invoked with the same query and the same limit, and this is the only
fallback path: a successful primary call maps its items and consults
nothing else. -/
theorem google_fallback_path (key cx query : String) (n : Int)
    (gnet : GoogleParams → Option GoogleResponse) (dnet : DDGParams → Option DDGResponse)
    (hfail : gnet (googleRequest key cx query n) = none) :
    google_search key cx query n gnet dnet = duckduckgo_search query n dnet
    ∧ ∀ (gnet2 : GoogleParams → Option GoogleResponse) (data : GoogleResponse),
        gnet2 (googleRequest key cx query n) = some data →
        google_search key cx query n gnet2 dnet
          = (data.items.getD []).map googleItemResult := by
  constructor
  · unfold google_search
    rw [hfail]
  · intro gnet2 data h2
    unfold google_search
    rw [h2]

/-- Witness for C5 at concrete inputs. -/
theorem google_fallback_path_witness :
    google_search "k" "c" "q" 5 (fun _ => none) (fun _ => none)
      = duckduckgo_search "q" 5 (fun _ => none) :=
  (google_fallback_path "k" "c" "q" 5 (fun _ => none) (fun _ => none) rfl).1

/-- C6: when both credentials are truthy search_web takes the primary
provider path; otherwise the secondary provider is called directly and the
output does not depend on the primary endpoint at all. -/
theorem provider_selection (agent : WebSearchAgent) (query : String) (n : Int)
    (net : Network) :
    ((optTruthy agent.search_api_key && optTruthy agent.search_engine_id) = true →
      search_web agent query n net =
        google_search (agent.search_api_key.getD "") (agent.search_engine_id.getD "")
          query n net.google net.ddg)
    ∧ ((optTruthy agent.search_api_key && optTruthy agent.search_engine_id) = false →
      search_web agent query n net = duckduckgo_search query n net.ddg
      ∧ ∀ g : GoogleParams → Option GoogleResponse,
          search_web agent query n ⟨g, net.ddg⟩ = search_web agent query n net) := by
  constructor
  · intro h
    simp [search_web, h]
  · intro h
    exact ⟨by simp [search_web, h], fun g => by simp [search_web, h]⟩

/-- Witness for C6 at concrete credential configurations. -/
theorem provider_selection_witness :
    search_web ⟨some "k", some "c"⟩ "q" 5 netFail
      = google_search "k" "c" "q" 5 netFail.google netFail.ddg
    ∧ search_web ⟨none, some "c"⟩ "q" 5 netA = duckduckgo_search "q" 5 netA.ddg := by
  constructor
  · exact (provider_selection ⟨some "k", some "c"⟩ "q" 5 netFail).1 (by decide)
  · exact ((provider_selection ⟨none, some "c"⟩ "q" 5 netA).2 (by decide)).1

/-- C7: if the completion call fails, generate_response returns the error
marker followed by one bullet line of title: snippet per input result, and
the returned text is non-empty even for an empty result list. -/
theorem generate_response_degraded (query e : String) (results : List SearchResult)
    (hf : ∀ r ∈ results, r.title.isSome = true ∧ r.snippet.isSome = true
      ∧ r.link.isSome = true) :
    generate_response query results (fun _ => Except.error e)
      = Except.ok ("❌ Error generating response: " ++ e
          ++ "\n\nHere are the raw search results:\n"
          ++ String.intercalate "\n"
              (results.map fun r => "• " ++ r.title.getD "" ++ ": " ++ r.snippet.getD ""))
    ∧ ∀ s, generate_response query results (fun _ => Except.error e) = Except.ok s
        → s ≠ "" := by
  have hb := bulletLines_ok fun r hr => ⟨(hf r hr).1, (hf r hr).2.1⟩
  have key : generate_response query results (fun _ => Except.error e)
      = Except.ok ("❌ Error generating response: " ++ e
          ++ "\n\nHere are the raw search results:\n"
          ++ String.intercalate "\n"
              (results.map fun r => "• " ++ r.title.getD "" ++ ": " ++ r.snippet.getD "")) := by
    rw [generate_response_eq_degraded hf]
    simp [degradedResponse, hb, Bind.bind, Except.bind]
  refine ⟨key, ?_⟩
  intro s hs
  rw [key] at hs
  rw [← Except.ok.inj hs]
  intro hc
  have hlen := congrArg String.length hc
  simp only [string_length_append] at hlen
  have ha : ("❌ Error generating response: " : String).length ≠ 0 := by decide
  have h0 : ("" : String).length = 0 := rfl
  rw [h0] at hlen
  omega

/-- Witness for C7 at the empty result list. -/
theorem generate_response_degraded_witness :
    generate_response "q" [] (fun _ => Except.error "boom")
      = Except.ok ("❌ Error generating response: " ++ "boom"
          ++ "\n\nHere are the raw search results:\n" ++ String.intercalate "\n" []) :=
  (generate_response_degraded "q" "boom" [] (by simp)).1

/-- C8: search_web in state-passing form returns the agent state unchanged,
so a second call with identical query, limit and stubbed network yields an
identical result sequence; the only state read is the read-only credential
pair. -/
theorem search_web_idempotent (agent : WebSearchAgent) (query : String) (n : Int)
    (net : Network) :
    (search_web_st agent query n net).2 = agent
    ∧ (search_web_st (search_web_st agent query n net).2 query n net).1
        = (search_web_st agent query n net).1 :=
  ⟨rfl, rfl⟩

/-- C9: the num parameter of the primary-provider request equals
min(limit, 10), hence is capped at 10 for every caller-requested limit. -/
theorem google_request_num_capped (key cx query : String) (n : Int) :
    (googleRequest key cx query n).num = min n 10
    ∧ (googleRequest key cx query n).num ≤ 10 :=
  ⟨rfl, min_le_right n 10⟩

/-- C10: every result produced on any provider path carries title, snippet
and link, the abstract-derived result is the only produced shape without a
source field, and generate_response therefore succeeds on every produced
result list, for any behavior of the completion call. -/
theorem result_fields_total (agent : WebSearchAgent) (query : String) (n : Int)
    (net : Network) :
    (∀ r ∈ search_web agent query n net,
      r.title.isSome = true ∧ r.snippet.isSome = true ∧ r.link.isSome = true
      ∧ (r.source = none → ∃ data, net.ddg (ddgRequest query) = some data
          ∧ optTruthy data.abstract = true ∧ r = ddgAbstractResult query data))
    ∧ ∀ completion : String → Except String String,
        ∃ s, generate_response query (search_web agent query n net) completion
          = Except.ok s := by
  refine ⟨fun r hr => mem_search_web_fields hr, fun completion => ?_⟩
  exact generate_response_ok completion fun r hr =>
    ⟨(mem_search_web_fields hr).1, (mem_search_web_fields hr).2.1,
     (mem_search_web_fields hr).2.2.1⟩

/-- Witness for C10 at a concrete network on which both providers fail. -/
theorem result_fields_total_witness :
    ((fallbackResult "q").title.isSome = true ∧ (fallbackResult "q").snippet.isSome = true
      ∧ (fallbackResult "q").link.isSome = true)
    ∧ ∃ s, generate_response "q" (search_web ⟨none, none⟩ "q" 5 netFail)
        (fun _ => Except.error "boom") = Except.ok s := by
  have h := result_fields_total ⟨none, none⟩ "q" 5 netFail
  have hm := h.1 (fallbackResult "q") (by decide)
  exact ⟨⟨hm.1, hm.2.1, hm.2.2.1⟩, h.2 (fun _ => Except.error "boom")⟩
